import Mathlib

/-!
Shallow embedding of the simulation-run orchestrator and live telemetry
extractor of the Traffic-Light-Surveillance-Management-System repository
(`web_app.py` and `data_pipeline/loader.py`).

Python strings are modelled as lists of characters, Python unbounded
integers as `Int`, and Python floats as exact unnormalized rationals
(`Q` below, a numerator/denominator pair of integers kept un-reduced so
that every operation is a plain integer computation).  Fallible Python
code (`try`/`except` blocks, fallible `int()`/`float()` conversions,
list indexing) is modelled with `Option`.  Binary-float rounding error
is idealized away: `float` arithmetic is modelled as exact rational
arithmetic, and Python's `round` as round-half-to-even on exact
rationals.  The `inf`/`nan`/underscore forms of Python float literals
are not modelled.
-/

abbrev Str := List Char

/-- Python `str.isspace` characters relevant to `str.strip` / `str.split`. -/
def isWS (c : Char) : Bool :=
  c == ' ' || c == '\t' || c == '\n' || c == '\r' || c == '\x0b' || c == '\x0c'

/-- Remove leading whitespace. -/
def stripL : Str → Str
  | [] => []
  | c :: t => if isWS c then stripL t else c :: t

/-- Python `str.strip()`: remove leading and trailing whitespace. -/
def strip (s : Str) : Str :=
  (stripL ((stripL s).reverse)).reverse

/-- Auxiliary for `wsSplit`: accumulate the current (reversed) token. -/
def wsSplitAux : Str → Str → List Str
  | [], cur => if cur.isEmpty then [] else [cur.reverse]
  | c :: t, cur =>
      if isWS c then
        if cur.isEmpty then wsSplitAux t [] else cur.reverse :: wsSplitAux t []
      else wsSplitAux t (c :: cur)

/-- Python `str.split()` (no argument): split on whitespace runs, dropping
empty tokens. -/
def wsSplit (s : Str) : List Str := wsSplitAux s []

/-- Auxiliary for `splitOnCh`. -/
def splitOnChAux (sep : Char) : Str → Str → List Str
  | [], cur => [cur.reverse]
  | c :: t, cur =>
      if c == sep then cur.reverse :: splitOnChAux sep t []
      else splitOnChAux sep t (c :: cur)

/-- Python `str.split(sep)` for a one-character separator: keeps empty
pieces, always returns at least one piece. -/
def splitOnCh (sep : Char) (s : Str) : List Str := splitOnChAux sep s []

/-- `strStarts s p`: Python `s.startswith(p)`. -/
def strStarts : Str → Str → Bool
  | _, [] => true
  | [], _ :: _ => false
  | a :: s, b :: p => a == b && strStarts s p

/-- `strHas s p`: Python `p in s` (substring containment). -/
def strHas : Str → Str → Bool
  | [], p => strStarts [] p
  | c :: t, p => strStarts (c :: t) p || strHas t p

/-- Numeric value of a string of decimal digits. -/
def digitsVal (s : Str) : Nat :=
  s.foldl (fun acc c => acc * 10 + (c.toNat - '0'.toNat)) 0

/-- Magnitude part of Python `int(s)`: non-empty all-digit string. -/
def pyIntMag (s : Str) : Option Nat :=
  if !s.isEmpty && s.all Char.isDigit then some (digitsVal s) else none

/-- Python `int(s)` on a string: strip whitespace, optional sign, digits;
`none` models `ValueError`. -/
def pyIntOpt (s : Str) : Option Int :=
  match strip s with
  | '+' :: t => (pyIntMag t).map (fun n => (n : Int))
  | '-' :: t => (pyIntMag t).map (fun n => -(n : Int))
  | t => (pyIntMag t).map (fun n => (n : Int))

/-- Exact unnormalized rational: Python floats are modelled as exact
`num/den` values.  Every operation below keeps `den` positive whenever
the operands have positive `den` (and, for division, a nonzero divisor,
which holds on every reachable code path). -/
structure Q where
  num : Int
  den : Int
deriving DecidableEq, Repr

def Q.ofInt (n : Int) : Q := ⟨n, 1⟩

def Q.addQ (a b : Q) : Q := ⟨a.num * b.den + b.num * a.den, a.den * b.den⟩

def Q.subQ (a b : Q) : Q := ⟨a.num * b.den - b.num * a.den, a.den * b.den⟩

def Q.mulQ (a b : Q) : Q := ⟨a.num * b.num, a.den * b.den⟩

/-- Division; the sign of the divisor's numerator is folded into the
result so that a positive-denominator invariant is preserved. -/
def Q.divQ (a b : Q) : Q :=
  if 0 ≤ b.num then ⟨a.num * b.den, a.den * b.num⟩
  else ⟨-(a.num * b.den), -(a.den * b.num)⟩

/-- `a < b` by cross-multiplication (valid for positive denominators). -/
def Q.ltB (a b : Q) : Bool := a.num * b.den < b.num * a.den

/-- Value equality by cross-multiplication (valid for nonzero
denominators of equal sign). -/
def Q.valEq (a b : Q) : Bool := a.num * b.den == b.num * a.den

/-- Python `min(a, b)`: returns the first argument on ties. -/
def Q.minQ (a b : Q) : Q := if Q.ltB b a then b else a

/-- Python `max(a, b)`: returns the first argument on ties. -/
def Q.maxQ (a b : Q) : Q := if Q.ltB a b then b else a

/-- Floor of a `Q` with positive denominator (`Int` `/` is Euclidean
division, which floors for a positive divisor). -/
def Q.floorQ (a : Q) : Int := a.num / a.den

/-- Python `int(float)`: truncation toward zero (positive denominator). -/
def Q.truncQ (a : Q) : Int :=
  if 0 ≤ a.num then a.num / a.den else -((-a.num) / a.den)

def Q.powTen (n : Nat) : Int := 10 ^ n

/-- Round to the nearest integer, ties to the even integer (Python
`round` on an exact value). -/
def roundHalfEvenQ (q : Q) : Int :=
  let f := Q.floorQ q
  let frac := Q.subQ q (Q.ofInt f)
  if Q.ltB frac ⟨1, 2⟩ then f
  else if Q.ltB ⟨1, 2⟩ frac then f + 1
  else if f % 2 = 0 then f else f + 1

/-- Python `round(q, n)` on an exact rational value. -/
def roundTo (q : Q) (n : Nat) : Q :=
  ⟨roundHalfEvenQ (Q.mulQ q ⟨Q.powTen n, 1⟩), Q.powTen n⟩

/-- Exponent part of a Python float literal (after `e`/`E`). -/
def pyExpVal (s : Str) : Option Int :=
  match s with
  | '+' :: t => (pyIntMag t).map (fun n => (n : Int))
  | '-' :: t => (pyIntMag t).map (fun n => -(n : Int))
  | t => (pyIntMag t).map (fun n => (n : Int))

def applyExp (m : Q) (ex : Int) : Q :=
  if 0 ≤ ex then ⟨m.num * Q.powTen ex.toNat, m.den⟩
  else ⟨m.num, m.den * Q.powTen (-ex).toNat⟩

/-- Unsigned part of Python `float(s)`: `digits[.digits][(e|E)exp]`. -/
def pyFloatMag (s : Str) : Option Q :=
  let ip := s.takeWhile Char.isDigit
  let r1 := s.dropWhile Char.isDigit
  let fp := match r1 with
            | '.' :: t => t.takeWhile Char.isDigit
            | _ => []
  let r2 := match r1 with
            | '.' :: t => t.dropWhile Char.isDigit
            | _ => r1
  if ip.isEmpty && fp.isEmpty then none
  else
    let m : Q := ⟨(digitsVal ip : Int) * Q.powTen fp.length + (digitsVal fp : Int),
                  Q.powTen fp.length⟩
    match r2 with
    | [] => some m
    | c :: t => if c == 'e' || c == 'E' then (pyExpVal t).map (applyExp m) else none

/-- Python `float(s)` on a string; `none` models `ValueError`. -/
def pyFloatOpt (s : Str) : Option Q :=
  match strip s with
  | '+' :: t => pyFloatMag t
  | '-' :: t => (pyFloatMag t).map (fun m => ⟨-m.num, m.den⟩)
  | t => pyFloatMag t

/-- Python dict assignment `m[k] = v` on an insertion-ordered dict:
update in place if the key is present, else append a new entry. -/
def dictSet [BEq κ] (m : List (κ × α)) (k : κ) (v : α) : List (κ × α) :=
  match m with
  | [] => [(k, v)]
  | (k', v') :: rest =>
      if k' == k then (k, v) :: rest else (k', v') :: dictSet rest k v

/-- Python `m.get(k)` / `k in m`. -/
def dictFind [BEq κ] (m : List (κ × α)) (k : κ) : Option α :=
  match m with
  | [] => none
  | (k', v') :: rest => if k' == k then some v' else dictFind rest k

/-- Python `m.get(k, dflt)`. -/
def dictFindD [BEq κ] (m : List (κ × α)) (k : κ) (dflt : α) : α :=
  (dictFind m k).getD dflt

-- ---------------------------------------------------------------------
-- Data model: `SimulationRun.__init__` (web_app.py lines 36-58)
-- ---------------------------------------------------------------------

inductive RunStatus
  | running
  | finished
  | error
  | stopped
deriving DecidableEq, Repr

structure LaneDetail where
  total : Int
  car : Int
  bus : Int
  truck : Int
  rickshaw : Int
  bike : Int
deriving DecidableEq, Repr

def initLaneDetail : LaneDetail := ⟨0, 0, 0, 0, 0, 0⟩

structure Stats where
  phase : Str
  lanes : List (Int × Int)
  lane_details : List (Int × LaneDetail)
  total_vehicles : Int
  total_time : Int
  throughput : Q
  traffic_density : Q
  average_wait : Q
  congestion_level : Q
deriving DecidableEq, Repr

def initStats : Stats :=
  { phase := []
  , lanes := [(1, 0), (2, 0), (3, 0), (4, 0)]
  , lane_details :=
      [(1, initLaneDetail), (2, initLaneDetail), (3, initLaneDetail), (4, initLaneDetail)]
  , total_vehicles := 0
  , total_time := 0
  , throughput := ⟨0, 1⟩
  , traffic_density := ⟨0, 1⟩
  , average_wait := ⟨0, 1⟩
  , congestion_level := ⟨0, 1⟩ }

/-- One run's mutable record.  The process handle is `none` when
released, `some alive` when attached (`alive` = `poll() is None`). -/
structure SimulationRun where
  run_id : Str
  sim_time : Int
  min_green : Int
  max_green : Int
  log_lines : List Str
  status : RunStatus
  stats : Stats
  process : Option Bool
deriving DecidableEq, Repr

def mkSimulationRun (run_id : Str) (sim_time min_green max_green : Int) : SimulationRun :=
  { run_id := run_id
  , sim_time := sim_time
  , min_green := min_green
  , max_green := max_green
  , log_lines := []
  , status := RunStatus.running
  , stats := initStats
  , process := none }

-- ---------------------------------------------------------------------
-- `_update_summary_metrics` (web_app.py lines 252-267)
-- ---------------------------------------------------------------------

def updateSummaryMetrics (run : SimulationRun) : SimulationRun :=
  let total_time := run.stats.total_time
  let total_vehicles := run.stats.total_vehicles
  let avg_wait : Q :=
    if 0 < total_vehicles then
      Q.maxQ (Q.ofInt 0) (Q.divQ (Q.ofInt total_time) (Q.ofInt total_vehicles))
    else Q.ofInt 0
  let stats1 := { run.stats with average_wait := roundTo avg_wait 2 }
  let sim_time := if run.sim_time = 0 then 1 else run.sim_time
  let theoretical_capacity := if sim_time * 4 ≤ 0 then 1 else sim_time * 4
  let density_frac :=
    Q.minQ (Q.ofInt 1) (Q.divQ (Q.ofInt total_vehicles) (Q.ofInt theoretical_capacity))
  let td := roundTo (Q.mulQ density_frac (Q.ofInt 100)) 1
  { run with stats := { stats1 with traffic_density := td, congestion_level := td } }

-- ---------------------------------------------------------------------
-- `_parse_stats_from_line` (web_app.py lines 160-249)
-- ---------------------------------------------------------------------

/-- `part.split("=")` destructured into exactly two pieces, as
`key, value = part.split("=")` requires. -/
def splitEq (part : Str) : Option (Str × Str) :=
  match splitOnCh '=' part with
  | [k, v] => some (k, v)
  | _ => none

/-- The `data` dict built from space-separated `key=value` tokens;
`none` models the `ValueError` on any malformed token. -/
def buildKV (parts : List Str) : Option (List (Str × Str)) :=
  parts.foldlM (fun m p => (splitEq p).map (fun kv => dictSet m kv.1 kv.2)) []

/-- Body of the `LANE_STATS` `try` block. -/
def laneStatsAttempt (run : SimulationRun) (line : Str) : Option SimulationRun := do
  let data ← buildKV ((wsSplit line).drop 1)
  let lane_idx ← pyIntOpt (dictFindD data "lane".data "0".data)
  if lane_idx ≠ 0 then
    let total ← pyIntOpt (dictFindD data "total".data "0".data)
    let car ← pyIntOpt (dictFindD data "car".data "0".data)
    let bus ← pyIntOpt (dictFindD data "bus".data "0".data)
    let truck ← pyIntOpt (dictFindD data "truck".data "0".data)
    let rickshaw ← pyIntOpt (dictFindD data "rickshaw".data "0".data)
    let bike ← pyIntOpt (dictFindD data "bike".data "0".data)
    pure { run with stats := { run.stats with
      lanes := dictSet run.stats.lanes lane_idx total
      lane_details := dictSet run.stats.lane_details lane_idx
        ⟨total, car, bus, truck, rickshaw, bike⟩ } }
  else
    pure run

def laneStatsUpdate (run : SimulationRun) (line : Str) : SimulationRun :=
  (laneStatsAttempt run line).getD run

/-- Body of the legacy `Lane <n>: ...: Total: <v>` `try` block. -/
def legacyLaneAttempt (run : SimulationRun) (line : Str) : Option SimulationRun := do
  let parts := splitOnCh ':' line
  let lane_part := strip (parts.headD [])
  let total_part := if 2 < parts.length then strip (parts.getD 2 []) else []
  let tok ← (wsSplit lane_part).get? 1
  let lane_num ← pyIntOpt tok
  let total_val ← pyIntOpt total_part
  pure { run with stats := { run.stats with
    lanes := dictSet run.stats.lanes lane_num total_val } }

def legacyLaneUpdate (run : SimulationRun) (line : Str) : SimulationRun :=
  (legacyLaneAttempt run line).getD run

/-- `line.split(":")[1]`, `none` modelling the `IndexError`. -/
def colonField1 (line : Str) : Option Str := (splitOnCh ':' line).get? 1

def totalVehiclesUpdate (run : SimulationRun) (line : Str) : SimulationRun :=
  (((colonField1 line).bind (fun s => pyFloatOpt (strip s))).map (fun q =>
    { run with stats := { run.stats with total_vehicles := Q.truncQ q } })).getD run

def totalTimeUpdate (run : SimulationRun) (line : Str) : SimulationRun :=
  (((colonField1 line).bind (fun s => pyFloatOpt (strip s))).map (fun q =>
    { run with stats := { run.stats with total_time := Q.truncQ q } })).getD run

def throughputUpdate (run : SimulationRun) (line : Str) : SimulationRun :=
  (((colonField1 line).bind (fun s => pyFloatOpt (strip s))).map (fun q =>
    { run with stats := { run.stats with throughput := q } })).getD run

def setTotalVehicles (run : SimulationRun) (v : Int) : SimulationRun :=
  { run with stats := { run.stats with total_vehicles := v } }

def setTotalTime (run : SimulationRun) (v : Int) : SimulationRun :=
  { run with stats := { run.stats with total_time := v } }

def setThroughput (run : SimulationRun) (q : Q) : SimulationRun :=
  { run with stats := { run.stats with throughput := q } }

/-- One `if <key> in data:` application inside the `SUMMARY` `try`
block, for the integer-valued keys: a malformed value raises, so the
remaining applications are skipped (`false` flag) while the mutations
already made are kept. -/
def applySummaryInt (data : List (Str × Str)) (key : Str)
    (setter : SimulationRun → Int → SimulationRun) :
    SimulationRun × Bool → SimulationRun × Bool
  | (run, ok) =>
    if !ok then (run, false)
    else
      match dictFind data key with
      | none => (run, true)
      | some v =>
        match pyFloatOpt v with
        | none => (run, false)
        | some q => (setter run (Q.truncQ q), true)

/-- Same as `applySummaryInt` for the float-valued `throughput` key. -/
def applySummaryQ (data : List (Str × Str)) (key : Str)
    (setter : SimulationRun → Q → SimulationRun) :
    SimulationRun × Bool → SimulationRun × Bool
  | (run, ok) =>
    if !ok then (run, false)
    else
      match dictFind data key with
      | none => (run, true)
      | some v =>
        match pyFloatOpt v with
        | none => (run, false)
        | some q => (setter run q, true)

def summaryUpdate (run : SimulationRun) (line : Str) : SimulationRun :=
  match buildKV ((wsSplit line).drop 1) with
  | none => run
  | some data =>
    (applySummaryQ data "throughput".data setThroughput
      (applySummaryInt data "time".data setTotalTime
        (applySummaryInt data "total".data setTotalVehicles (run, true)))).1

def parseStatsFromLine (run : SimulationRun) (rawLine : Str) : SimulationRun :=
  let line := strip rawLine
  if line.isEmpty then run
  else
    let run :=
      if strHas line "GREEN TS".data || strHas line "YELLOW TS".data
          || strHas line "RED TS".data then
        { run with stats := { run.stats with phase := line } }
      else run
    let run := if strStarts line "LANE_STATS".data then laneStatsUpdate run line else run
    let run :=
      if strStarts line "Lane ".data && strHas line "Total:".data then
        legacyLaneUpdate run line
      else run
    let run :=
      if strStarts line "Total vehicles passed".data then totalVehiclesUpdate run line
      else run
    let run :=
      if strStarts line "Total time passed".data then
        updateSummaryMetrics (totalTimeUpdate run line)
      else run
    let run :=
      if strStarts line "No. of vehicles passed per unit time".data then
        updateSummaryMetrics (throughputUpdate run line)
      else run
    let run :=
      if strStarts line "SUMMARY".data then updateSummaryMetrics (summaryUpdate run line)
      else run
    if strStarts line "SIMULATION_COMPLETE".data then
      { run with status := RunStatus.finished }
    else run

/-- The line shapes recognized by `_parse_stats_from_line`, grouped
exactly as the branch guards group them. -/
def recognizedLine (line : Str) : Bool :=
  (strHas line "GREEN TS".data || strHas line "YELLOW TS".data
      || strHas line "RED TS".data)
  || strStarts line "LANE_STATS".data
  || (strStarts line "Lane ".data && strHas line "Total:".data)
  || strStarts line "Total vehicles passed".data
  || strStarts line "Total time passed".data
  || strStarts line "No. of vehicles passed per unit time".data
  || strStarts line "SUMMARY".data
  || strStarts line "SIMULATION_COMPLETE".data

-- ---------------------------------------------------------------------
-- Control surface: `api_run`, `api_status`, `api_stop`
-- (web_app.py lines 359-421)
-- ---------------------------------------------------------------------

structure CreateParams where
  sim_time : Int
  min_green : Int
  max_green : Int
deriving DecidableEq, Repr

/-- Modelled from the spec: the create-time parameter constraints
(`sim_time > 0`, `min_green > 0`, `max_green ≥ min_green`) that the
spec says `CreateRun` validates.  `web_app.py:api_run` contains no
counterpart of this check. -/
def specParamsValid (p : CreateParams) : Bool :=
  (0 < p.sim_time) && (0 < p.min_green) && (p.min_green ≤ p.max_green)

/-- `api_run`: builds a fresh `SimulationRun`, inserts it into the
registry and returns `{run_id, status}`.  The freshly drawn uuid is a
parameter. -/
def api_run (payload : CreateParams) (run_id : Str)
    (runs : List (Str × SimulationRun)) :
    List (Str × SimulationRun) × Str × RunStatus :=
  let run := mkSimulationRun run_id payload.sim_time payload.min_green payload.max_green
  (dictSet runs run_id run, run_id, run.status)

structure StatusPayload where
  run_id : Str
  status : RunStatus
  params : CreateParams
  log : List Str
  stats : Stats
deriving DecidableEq, Repr

/-- `api_status` on a run found in the registry. -/
def api_status (run : SimulationRun) : StatusPayload :=
  { run_id := run.run_id
  , status := run.status
  , params := ⟨run.sim_time, run.min_green, run.max_green⟩
  , log := run.log_lines.drop (run.log_lines.length - 300)
  , stats := run.stats }

/-- `api_stop` on a run found in the registry: appends the stop marker
only when a live process handle is attached, then unconditionally sets
the status to `stopped` and releases the handle, answering `stopped`. -/
def api_stop (run : SimulationRun) : SimulationRun × Str :=
  let run1 :=
    match run.process with
    | some true =>
        { run with log_lines := run.log_lines ++ ["[system] stop requested by user".data] }
    | _ => run
  ({ run1 with status := RunStatus.stopped, process := none }, "stopped".data)

-- ---------------------------------------------------------------------
-- Worker task: `_run_simulation_subprocess` (web_app.py lines 270-316)
-- ---------------------------------------------------------------------

/-- What the attempt to launch and drain the subprocess produced:
either the launch raised, or the process ran, emitted `outputLines`
and exited with `returncode`. -/
inductive LaunchOutcome
  | failed (msg : Str)
  | launched (outputLines : List Str) (returncode : Int)

/-- Python `line.rstrip("\n")`. -/
def rstripNl (s : Str) : Str := (s.reverse.dropWhile (fun c => c == '\n')).reverse

/-- One iteration of the output-reading loop: append to the log, then
feed the line to the stats extractor. -/
def workerProcessLine (run : SimulationRun) (line : Str) : SimulationRun :=
  parseStatsFromLine { run with log_lines := run.log_lines ++ [rstripNl line] } line

/-- The post-`wait()` block: resolve the final status from the exit
code unless a stop was requested, and release the handle. -/
def workerExit (run : SimulationRun) (returncode : Int) : SimulationRun :=
  if run.status = RunStatus.stopped then
    { run with
        log_lines := run.log_lines ++ ["[system] simulation halted by user".data]
      , process := none }
  else if returncode = 0 then
    { run with status := RunStatus.finished, process := none }
  else
    { run with status := RunStatus.error, process := none }

/-- The whole worker-task body including its `except` boundary. -/
def runSimulationSubprocess (run : SimulationRun) (outcome : LaunchOutcome) : SimulationRun :=
  match outcome with
  | LaunchOutcome.failed msg =>
      { run with
          log_lines := run.log_lines ++ ["[backend error] ".data ++ msg]
        , status := RunStatus.error }
  | LaunchOutcome.launched outputLines rc =>
      workerExit (outputLines.foldl workerProcessLine { run with process := some true }) rc

-- ---------------------------------------------------------------------
-- City-dataset key normalizer: `loader.py` lines 61-62
-- ---------------------------------------------------------------------

def strLower (s : Str) : Str := s.map Char.toLower

/-- Python `str.replace(a, b)` for one-character arguments. -/
def strReplaceCh (s : Str) (a b : Char) : Str :=
  s.map (fun c => if c == a then b else c)

/-- `normalize_key(value) = value.strip().lower().replace(" ", "-")`. -/
def normalize_key (s : Str) : Str :=
  strReplaceCh (strLower (strip s)) ' ' '-'

def hyphenJoin : List Str → Str
  | [] => []
  | [w] => w
  | w :: ws => w ++ '-' :: hyphenJoin ws

/-- Modelled from the spec: "lowercase, whitespace collapsed to
hyphens" — every maximal whitespace run becomes one hyphen,
leading/trailing whitespace removed. -/
def specNormalizeKey (s : Str) : Str := hyphenJoin (wsSplit (strLower s))

/-- The corrected description of `normalize_key`: lowercase, strip,
then map each single space character to a hyphen. -/
def amendedNormalizeKey (s : Str) : Str :=
  (strip s).map (fun c => if c.toLower == ' ' then '-' else c.toLower)

-- ---------------------------------------------------------------------
-- Spec-side summary formulas (§4.4), for claim C6
-- ---------------------------------------------------------------------

/-- Modelled from the spec: `average_wait = round(total_time /
total_vehicles, 2)` if `total_vehicles > 0`, else `0`. -/
def specAverageWait (total_time total_vehicles : Int) : Q :=
  if 0 < total_vehicles then
    roundTo (Q.divQ (Q.ofInt total_time) (Q.ofInt total_vehicles)) 2
  else Q.ofInt 0

/-- Modelled from the spec: `traffic_density = round(min(1.0,
total_vehicles / max(1, sim_time * 4)) * 100, 1)`. -/
def specTrafficDensity (total_vehicles sim_time : Int) : Q :=
  roundTo
    (Q.mulQ
      (Q.minQ (Q.ofInt 1)
        (Q.divQ (Q.ofInt total_vehicles) (Q.ofInt (max 1 (sim_time * 4)))))
      (Q.ofInt 100)) 1

-- ---------------------------------------------------------------------
-- Shared concrete runs and helper lemmas
-- ---------------------------------------------------------------------

/-- A fresh run with the default parameters of `api_run`. -/
def run120 : SimulationRun := mkSimulationRun "r0".data 120 10 60

/-- A fresh run with `sim_time = 50` (the spec's worked example). -/
def run50 : SimulationRun := mkSimulationRun "r5".data 50 10 60

/-- A run whose raw `total_time` counter is already 8. -/
def runT8 : SimulationRun :=
  { run120 with stats := { initStats with total_time := 8 } }

/-- A run with given `sim_time` and raw counters, for stating properties
of the summary recompute over every prior state. -/
def withCounters (r : SimulationRun) (simt tt tv : Int) : SimulationRun :=
  { r with sim_time := simt, stats := { r.stats with total_time := tt, total_vehicles := tv } }

theorem Q.valEq_refl (a : Q) : Q.valEq a a = true := by simp [Q.valEq]

theorem dictFind_dictSet_self [BEq κ] [LawfulBEq κ] (m : List (κ × α)) (k : κ) (v : α) :
    dictFind (dictSet m k v) k = some v := by
  induction m with
  | nil => simp [dictSet, dictFind]
  | cons p rest ih =>
      obtain ⟨k', v'⟩ := p
      by_cases h : (k' == k)
      · simp [dictSet, dictFind, h]
      · simp [dictSet, dictFind, h, ih]

theorem workerExit_status_ne_running (r : SimulationRun) (rc : Int) :
    (workerExit r rc).status ≠ RunStatus.running := by
  unfold workerExit
  by_cases h : r.status = RunStatus.stopped
  · simp [h]
  · by_cases h0 : rc = 0 <;> simp [h, h0]

theorem roundTo_zero_num (d : Int) (hd : 0 < d) (n : Nat) :
    roundTo ⟨0, d⟩ n = ⟨0, Q.powTen n⟩ := by
  unfold roundTo roundHalfEvenQ Q.mulQ Q.subQ Q.ltB Q.floorQ Q.ofInt
  simp only [Int.zero_mul, Int.mul_one, Int.one_mul, Int.zero_ediv, Int.zero_sub, Int.sub_zero]
  have hd1 : (0:Int) < d * 1 := by omega
  have hpow : (0:Int) < Q.powTen n := by unfold Q.powTen; positivity
  simp [Q.powTen] at hpow ⊢
  omega

/-- `average_wait` after a recompute, as the code computes it. -/
theorem usm_avg (run : SimulationRun) :
    (updateSummaryMetrics run).stats.average_wait
      = roundTo (if 0 < run.stats.total_vehicles then
          Q.maxQ (Q.ofInt 0)
            (Q.divQ (Q.ofInt run.stats.total_time) (Q.ofInt run.stats.total_vehicles))
        else Q.ofInt 0) 2 := rfl

/-- `traffic_density` after a recompute, as the code computes it. -/
theorem usm_td (run : SimulationRun) :
    (updateSummaryMetrics run).stats.traffic_density
      = roundTo (Q.mulQ
          (Q.minQ (Q.ofInt 1)
            (Q.divQ (Q.ofInt run.stats.total_vehicles)
              (Q.ofInt
                (if (if run.sim_time = 0 then 1 else run.sim_time) * 4 ≤ 0 then 1
                 else (if run.sim_time = 0 then 1 else run.sim_time) * 4))))
          (Q.ofInt 100)) 1 := rfl

/-- The recompute assigns `congestion_level` from `traffic_density`. -/
theorem usm_cong (run : SimulationRun) :
    (updateSummaryMetrics run).stats.congestion_level
      = (updateSummaryMetrics run).stats.traffic_density := rfl

/-- The code's `average_wait` expression agrees in value with the spec
formula whenever `total_time` is non-negative. -/
theorem avg_code_eq_spec (tt tv : Int) (htt : 0 ≤ tt) :
    Q.valEq
      (roundTo (if 0 < tv then
          Q.maxQ (Q.ofInt 0) (Q.divQ (Q.ofInt tt) (Q.ofInt tv))
        else Q.ofInt 0) 2)
      (specAverageWait tt tv) = true := by
  unfold specAverageWait
  by_cases hv : 0 < tv
  · rw [if_pos hv, if_pos hv]
    unfold Q.divQ Q.ofInt
    dsimp only
    rw [if_pos (le_of_lt hv)]
    simp only [mul_one, one_mul]
    unfold Q.maxQ Q.ltB
    dsimp only
    simp only [zero_mul, mul_one, decide_eq_true_eq]
    by_cases ht : (0:Int) < tt
    · rw [if_pos ht]
      exact Q.valEq_refl _
    · rw [if_neg ht]
      have htt0 : tt = 0 := le_antisymm (not_lt.mp ht) htt
      subst htt0
      rw [roundTo_zero_num 1 one_pos, roundTo_zero_num tv hv]
      exact Q.valEq_refl _
  · rw [if_neg hv, if_neg hv]
    decide

/-- The code's `traffic_density` expression equals the spec formula
whenever `sim_time` is positive. -/
theorem td_code_eq_spec (tv st : Int) (hst : 0 < st) :
    roundTo (Q.mulQ
      (Q.minQ (Q.ofInt 1)
        (Q.divQ (Q.ofInt tv)
          (Q.ofInt
            (if (if st = 0 then 1 else st) * 4 ≤ 0 then 1
             else (if st = 0 then 1 else st) * 4))))
      (Q.ofInt 100)) 1 = specTrafficDensity tv st := by
  have h1 : (if st = 0 then 1 else st) = st := if_neg (by omega)
  rw [h1]
  have h2 : ¬(st * 4 ≤ 0) := by omega
  rw [if_neg h2]
  unfold specTrafficDensity
  have h3 : max 1 (st * 4) = st * 4 := max_eq_right (by omega)
  rw [h3]

-- ---------------------------------------------------------------------
-- Claim theorems
-- ---------------------------------------------------------------------

/-- C1 counterexample: the parameters `(sim_time=0, min_green=10,
max_green=60)` violate the create-time constraints, yet `api_run`
inserts a `running` run for them into the registry and returns its id —
no synchronous rejection exists. -/
theorem C1_counterexample :
    specParamsValid ⟨0, 10, 60⟩ = false
    ∧ (api_run ⟨0, 10, 60⟩ "id0".data []).1
        = [("id0".data, mkSimulationRun "id0".data 0 10 60)]
    ∧ (mkSimulationRun "id0".data 0 10 60).status = RunStatus.running := by
  decide

/-- C1 (amended): `api_run` performs no parameter validation: for every
payload — valid or not — it inserts a `running` run under the fresh id
and returns that id with status `running`. -/
theorem C1_no_validation (p : CreateParams) (run_id : Str)
    (runs : List (Str × SimulationRun)) :
    (api_run p run_id runs).2.1 = run_id
    ∧ (api_run p run_id runs).2.2 = RunStatus.running
    ∧ dictFind (api_run p run_id runs).1 run_id
        = some (mkSimulationRun run_id p.sim_time p.min_green p.max_green) := by
  refine ⟨rfl, rfl, ?_⟩
  exact dictFind_dictSet_self runs run_id _

/-- C2 counterexample: `LANE_STATS lane=9 total=5` is not ignored: it
changes the lane map by inserting a new entry for lane 9. -/
theorem C2_counterexample :
    (parseStatsFromLine run120 "LANE_STATS lane=9 total=5".data).stats.lanes
      ≠ run120.stats.lanes := by
  decide

/-- C2 (amended): a `LANE_STATS` line whose lane id is `0`, or containing
a malformed `key=value` token, leaves the whole run (stats and status)
unchanged; but a well-formed nonzero lane id outside `{1,2,3,4}` is
processed, inserting a fresh entry into both the scalar lane map and
the detail map, still without aborting the run. -/
theorem C2_lane_stats (r : SimulationRun) :
    parseStatsFromLine r "LANE_STATS lane=0 total=5".data = r
    ∧ parseStatsFromLine r "LANE_STATS lane=1 total=bad".data = r
    ∧ parseStatsFromLine r "LANE_STATS junk".data = r
    ∧ (parseStatsFromLine run120 "LANE_STATS lane=9 total=5".data).stats.lanes
        = [(1, 0), (2, 0), (3, 0), (4, 0), (9, 5)]
    ∧ dictFind (parseStatsFromLine run120 "LANE_STATS lane=9 total=5".data).stats.lane_details 9
        = some ⟨5, 0, 0, 0, 0, 0⟩
    ∧ (parseStatsFromLine run120 "LANE_STATS lane=9 total=5".data).status
        = RunStatus.running := by
  refine ⟨rfl, rfl, rfl, by decide, by decide, by decide⟩

/-- C3 counterexample: stopping a run whose status is already terminal
`finished` rewrites the status to `stopped`, and the worker's exit-code
handling rewrites a `finished` status to `error` on a nonzero exit
code — terminal statuses other than `stopped` are not preserved. -/
theorem C3_counterexample :
    (api_stop { run120 with status := RunStatus.finished }).1.status = RunStatus.stopped
    ∧ { run120 with status := RunStatus.finished }.status = RunStatus.finished
    ∧ (workerExit { run120 with status := RunStatus.finished } 1).status = RunStatus.error := by
  decide

/-- C3 (amended): only `stopped` is sticky.  `api_stop` always answers
`stopped` and always sets the status to `stopped` (so it overwrites
`finished`/`error`); on an already-stopped run with a released handle it
is a genuine no-op.  The worker's exit-code handling preserves a
`stopped` status. -/
theorem C3_stopped_preserved (run : SimulationRun) (rc : Int) :
    (api_stop run).1.status = RunStatus.stopped
    ∧ (api_stop run).2 = "stopped".data
    ∧ (workerExit { run with status := RunStatus.stopped } rc).status = RunStatus.stopped
    ∧ api_stop { run with status := RunStatus.stopped, process := none }
        = ({ run with status := RunStatus.stopped, process := none }, "stopped".data) := by
  refine ⟨rfl, rfl, rfl, rfl⟩

/-- C4 counterexample: with `sim_time = 50`, the line
`Total vehicles passed: 40` sets `total_vehicles := 40` but leaves
`traffic_density` at its prior value `0`, which differs in value from
the spec-formula result `20.0` — no summary recompute happened. -/
theorem C4_counterexample :
    (parseStatsFromLine run50 "Total vehicles passed: 40".data).stats.total_vehicles = 40
    ∧ Q.valEq (parseStatsFromLine run50 "Total vehicles passed: 40".data).stats.traffic_density
        (specTrafficDensity 40 50) = false := by
  decide

/-- C4 (amended): a `Total vehicles passed: <v>` line sets
`total_vehicles` to the truncated integer value of `<v>` but does not
recompute the summary metrics: `average_wait`, `traffic_density` and
`congestion_level` keep their prior values, whatever the prior state. -/
theorem C4_no_recompute (r : SimulationRun) :
    (parseStatsFromLine r "Total vehicles passed: 40".data).stats.total_vehicles = 40
    ∧ (parseStatsFromLine r "Total vehicles passed: 3.9".data).stats.total_vehicles = 3
    ∧ (parseStatsFromLine r "Total vehicles passed: 40".data).stats.average_wait
        = r.stats.average_wait
    ∧ (parseStatsFromLine r "Total vehicles passed: 40".data).stats.traffic_density
        = r.stats.traffic_density
    ∧ (parseStatsFromLine r "Total vehicles passed: 40".data).stats.congestion_level
        = r.stats.congestion_level := by
  refine ⟨rfl, rfl, rfl, rfl, rfl⟩

/-- C5 counterexample: in `SUMMARY total=bad time=5` the key `time=5` is
well-formed, yet `total_time` is not updated to 5: the malformed
`total` value aborts the whole application sequence. -/
theorem C5_counterexample :
    (parseStatsFromLine run120 "SUMMARY total=bad time=5".data).stats.total_time ≠ 5 := by
  decide

/-- C5 (amended): `SUMMARY` first parses every token (a malformed token
drops the whole line), then applies `total`, `time`, `throughput` in
that fixed order, independent of their position in the line; the first
malformed value aborts the remaining applications (their fields keep
prior values) while already-applied keys keep their new values, and the
summary recompute runs in every case (here: `average_wait` recomputed
from the freshly applied `total=4` and the retained `total_time = 8`). -/
theorem C5_fixed_order_partial (r : SimulationRun) :
    (parseStatsFromLine r "SUMMARY total=bad time=5".data).stats.total_vehicles
        = r.stats.total_vehicles
    ∧ (parseStatsFromLine r "SUMMARY total=bad time=5".data).stats.total_time
        = r.stats.total_time
    ∧ (parseStatsFromLine r "SUMMARY total=bad time=5".data).stats.throughput
        = r.stats.throughput
    ∧ (parseStatsFromLine r "SUMMARY total=7 time=bad".data).stats.total_vehicles = 7
    ∧ (parseStatsFromLine r "SUMMARY total=7 time=bad".data).stats.total_time
        = r.stats.total_time
    ∧ (parseStatsFromLine r "SUMMARY total=7 time=bad".data).stats.throughput
        = r.stats.throughput
    ∧ (parseStatsFromLine r "SUMMARY time=5 total=7".data).stats.total_vehicles = 7
    ∧ (parseStatsFromLine r "SUMMARY time=5 total=7".data).stats.total_time = 5
    ∧ (parseStatsFromLine runT8 "SUMMARY total=4 time=bad".data).stats.average_wait
        = ⟨200, 100⟩ := by
  refine ⟨rfl, rfl, rfl, rfl, rfl, rfl, rfl, rfl, by decide⟩

/-- C6: whenever the summary recompute runs on a state with sim_time > 0
and non-negative counters, the computed `average_wait` agrees in value
with the spec formula `round(total_time/total_vehicles, 2)` (or `0` for
`total_vehicles = 0`), `traffic_density` equals the spec formula
`round(min(1, total_vehicles/max(1, sim_time*4))*100, 1)`, and
`congestion_level` equals `traffic_density`; feeding the spec's example
lines with `sim_time = 50` yields `2.5` / `20.0` / `20.0`. -/
theorem C6_summary_formulas (r : SimulationRun) (tt tv st : Nat) :
    Q.valEq (updateSummaryMetrics (withCounters r ((st : Int) + 1) tt tv)).stats.average_wait
      (specAverageWait tt tv) = true
    ∧ (updateSummaryMetrics (withCounters r ((st : Int) + 1) tt tv)).stats.traffic_density
      = specTrafficDensity tv ((st : Int) + 1)
    ∧ (updateSummaryMetrics (withCounters r ((st : Int) + 1) tt tv)).stats.congestion_level
      = (updateSummaryMetrics (withCounters r ((st : Int) + 1) tt tv)).stats.traffic_density
    ∧ (parseStatsFromLine (parseStatsFromLine run50 "Total vehicles passed: 40".data)
        "Total time passed: 100".data).stats.average_wait = ⟨250, 100⟩
    ∧ (parseStatsFromLine (parseStatsFromLine run50 "Total vehicles passed: 40".data)
        "Total time passed: 100".data).stats.traffic_density = ⟨200, 10⟩
    ∧ (parseStatsFromLine (parseStatsFromLine run50 "Total vehicles passed: 40".data)
        "Total time passed: 100".data).stats.congestion_level = ⟨200, 10⟩ := by
  refine ⟨?_, ?_, usm_cong _, by decide, by decide, by decide⟩
  · rw [usm_avg]
    dsimp only [withCounters]
    exact avg_code_eq_spec (tt : Int) (tv : Int) (Int.natCast_nonneg tt)
  · rw [usm_td]
    dsimp only [withCounters]
    exact td_code_eq_spec (tv : Int) ((st : Int) + 1) (by positivity)

/-- C7: a fault in the worker task (modelled as the launch failing with
message `msg`) is absorbed at the task boundary: the run ends in
terminal `error` status with the diagnostic line appended; and on the
normal path, whatever lines were read and whatever the exit code, the
worker never leaves the status at `running`. -/
theorem C7_worker_boundary (run : SimulationRun) (msg : Str)
    (outputLines : List Str) (rc : Int) :
    (runSimulationSubprocess run (LaunchOutcome.failed msg)).status = RunStatus.error
    ∧ (runSimulationSubprocess run (LaunchOutcome.failed msg)).log_lines
        = run.log_lines ++ ["[backend error] ".data ++ msg]
    ∧ (runSimulationSubprocess run (LaunchOutcome.launched outputLines rc)).status
        ≠ RunStatus.running := by
  refine ⟨rfl, rfl, ?_⟩
  exact workerExit_status_ne_running _ rc

/-- C8: the stats extractor is a total function, and any line that (after
stripping) matches none of the recognized patterns leaves the run —
stats and status included — entirely unchanged. -/
theorem C8_unrecognized_frame (run : SimulationRun) (line : Str)
    (h : recognizedLine (strip line) = false) :
    parseStatsFromLine run line = run := by
  unfold recognizedLine at h
  simp only [Bool.or_eq_false_iff] at h
  obtain ⟨⟨⟨⟨⟨⟨⟨⟨⟨hg1, hg2⟩, hg3⟩, hls⟩, hleg⟩, htv⟩, htt⟩, hth⟩, hsum⟩, hsc⟩ := h
  unfold parseStatsFromLine
  by_cases he : (strip line).isEmpty
  · simp [he]
  · simp [he, hg1, hg2, hg3, hls, hleg, htv, htt, hth, hsum, hsc]

/-- C8 witness: the line `hello world` matches no recognized pattern and
indeed leaves the run unchanged. -/
theorem C8_witness :
    recognizedLine (strip "hello world".data) = false
    ∧ parseStatsFromLine run120 "hello world".data = run120 :=
  ⟨by decide, C8_unrecognized_frame run120 "hello world".data (by decide)⟩

/-- C9 counterexample: on `"a  b"` (two interior spaces) the normalizer
yields `"a--b"` while collapsing whitespace runs would yield `"a-b"`,
and an interior tab survives unreplaced. -/
theorem C9_counterexample :
    normalize_key "a  b".data = "a--b".data
    ∧ specNormalizeKey "a  b".data = "a-b".data
    ∧ normalize_key "a  b".data ≠ specNormalizeKey "a  b".data
    ∧ normalize_key ['a', '\t', 'b'] ≠ specNormalizeKey ['a', '\t', 'b'] := by
  decide

/-- C9 (amended): the normalizer lowercases, removes leading/trailing
whitespace, and replaces each single space character with a hyphen —
whitespace runs are not collapsed and interior non-space whitespace is
preserved (one pass over the stripped string). -/
theorem C9_amended_normalize (s : Str) : normalize_key s = amendedNormalizeKey s := by
  unfold normalize_key amendedNormalizeKey strReplaceCh strLower
  rw [List.map_map]
  rfl

/-- C10: a legacy `Lane 1: Total: 38` line updates only the scalar lane
map, never the detail records (for every prior state); from a fresh run
the scalar total for lane 1 becomes 38 while the detail record's total
stays 0, and the status snapshot exposes both stats wholesale. -/
theorem C10_dual_totals (r : SimulationRun) :
    (parseStatsFromLine r "Lane 1: Total: 38".data).stats.lane_details
        = r.stats.lane_details
    ∧ dictFind (parseStatsFromLine run120 "Lane 1: Total: 38".data).stats.lanes 1
        = some 38
    ∧ dictFind (parseStatsFromLine run120 "Lane 1: Total: 38".data).stats.lane_details 1
        = some initLaneDetail
    ∧ initLaneDetail.total = 0
    ∧ (api_status (parseStatsFromLine run120 "Lane 1: Total: 38".data)).stats
        = (parseStatsFromLine run120 "Lane 1: Total: 38".data).stats := by
  refine ⟨rfl, by decide, by decide, rfl, rfl⟩
